import Mathlib

/-!
# Verification of the reservation system's booking concurrency core

Shallow embedding of `src/lib/booking.ts` and `src/lib/availability.ts`.

Modelling conventions:
* Instants are epoch minutes (`Int`), matching the minute granularity of the
  system (availability rules are `HH:MM` strings; durations are minutes).
* A time zone is modelled as a fixed UTC offset in minutes: `fromZonedTime`
  subtracts the offset (wall clock → UTC), `toZonedTime` adds it (UTC → wall
  clock), mirroring the date-fns-tz functions the code uses.  DST is outside
  the model; none of the verified properties depend on it.
* The Prisma store is a record of lists; `findUnique` becomes `List.find?`,
  `findMany` with a `where` clause becomes `List.filter`, `create` appends,
  `update` maps over the list, and a transaction abort returns the store
  unchanged.
* The `FOR UPDATE NOWAIT` row lock either succeeds or raises error `55P03`;
  its outcome is an explicit boolean argument `lockAcquired` supplied by the
  environment.
* Exceptions become an `Except` value paired with the resulting store.
-/

/-- Reservation status, from the Prisma enum used by `booking.ts`. -/
inductive Status where
  | pending
  | confirmed
  | cancelled
  | completed
  | no_show
deriving DecidableEq, Repr

/-- A row of the `bookings` table. -/
structure Booking where
  id : String
  providerId : String
  serviceId : String
  startTime : Int
  endTime : Int
  customerName : String
  customerEmail : String
  customerPhone : Option String
  customerTimezone : String
  notes : Option String
  status : Status
  confirmedAt : Option Int
  cancelledAt : Option Int
  cancellationReason : Option String
  version : Nat
deriving DecidableEq, Repr

/-- A row of the `providers` table (the fields the core reads). -/
structure Provider where
  id : String
  fullName : String
  businessName : String
  email : String
  /-- IANA zone, modelled as its fixed UTC offset in minutes. -/
  timezone : Int
deriving DecidableEq, Repr

/-- A row of the `services` table (the fields the core reads). -/
structure Service where
  id : String
  providerId : String
  name : String
  durationMinutes : Int
  bufferTimeMinutes : Int
  price : Int
  isActive : Bool
deriving DecidableEq, Repr

/-- A row of the `availability` table: a weekly recurring rule.
`startTime`/`endTime` are local wall-clock minutes from midnight
(the TS code stores them as `HH:MM` strings). -/
structure AvailabilityRule where
  providerId : String
  dayOfWeek : Nat
  startTime : Int
  endTime : Int
  isAvailable : Bool
deriving DecidableEq, Repr

/-- A row of the `blocked_periods` table (UTC instants). -/
structure BlockedPeriod where
  providerId : String
  startDatetime : Int
  endDatetime : Int
  reason : Option String
deriving DecidableEq, Repr

/-- The transactional store the core reads and writes. -/
structure DB where
  providers : List Provider
  services : List Service
  availability : List AvailabilityRule
  bookings : List Booking
  blockedPeriods : List BlockedPeriod
deriving DecidableEq, Repr

/-- `fromZonedTime wall off`: interpret a wall-clock instant in a zone of
UTC offset `off` minutes and return the UTC instant. -/
def fromZonedTime (wall off : Int) : Int := wall - off

/-- `toZonedTime utc off`: shift a UTC instant into the wall clock of a zone
of UTC offset `off` minutes (what date-fns-tz `toZonedTime` does to the
underlying epoch value). -/
def toZonedTime (utc off : Int) : Int := utc + off

/-- Error codes thrown as `BookingError` by `src/lib/booking.ts` (plus the
codes the catch block translates Prisma/Postgres errors into). -/
inductive BookingCode where
  | SLOT_UNAVAILABLE
  | SLOT_BUSY
  | PROVIDER_NOT_FOUND
  | SERVICE_NOT_FOUND
  | BOOKING_NOT_FOUND
  | ALREADY_CANCELLED
  | UNAUTHORIZED
  | BOOKING_FAILED
  | CANCELLATION_FAILED
  | UPDATE_FAILED
deriving DecidableEq, Repr

/-- Input of `createBookingSafe` (interface `CreateBookingData`). -/
structure CreateBookingData where
  providerId : String
  serviceId : String
  startTime : Int
  endTime : Int
  customerName : String
  customerEmail : String
  customerPhone : Option String
  customerTimezone : Option String
  notes : Option String
deriving DecidableEq, Repr

/-- The raw-SQL conflict predicate of `createBookingSafe` step 1:
`provider_id = data.providerId AND start_time < data.endTime AND
end_time > data.startTime AND status NOT IN ('cancelled')`. -/
def conflictsWith (b : Booking) (data : CreateBookingData) : Bool :=
  decide (b.providerId = data.providerId ∧ b.startTime < data.endTime ∧
    b.endTime > data.startTime ∧ b.status ≠ Status.cancelled)

/-- `createBookingSafe` of `src/lib/booking.ts`.

`lockAcquired` is the outcome of the `FOR UPDATE NOWAIT` lock acquisition:
when it is `false` Postgres raises `55P03`, which the catch block maps to
`SLOT_BUSY`.  `now` stands for `new Date()` and `newId` for the generated
row id.  On any error the transaction aborts, so the store is returned
unchanged.  Note the source checks only the *existence* of the service (a
`findUnique` on `id` alone, no `providerId` filter) and performs no
validation of the requested range. -/
def createBookingSafe (lockAcquired : Bool) (db : DB) (data : CreateBookingData)
    (now : Int) (newId : String) : Except BookingCode Booking × DB :=
  if !lockAcquired then (.error .SLOT_BUSY, db)
  else
    let conflicts := db.bookings.filter (fun b => conflictsWith b data)
    if conflicts.length > 0 then (.error .SLOT_UNAVAILABLE, db)
    else
      match db.providers.find? (fun p => decide (p.id = data.providerId)) with
      | none => (.error .PROVIDER_NOT_FOUND, db)
      | some _ =>
        match db.services.find? (fun s => decide (s.id = data.serviceId)) with
        | none => (.error .SERVICE_NOT_FOUND, db)
        | some _ =>
          let booking : Booking := {
            id := newId
            providerId := data.providerId
            serviceId := data.serviceId
            startTime := data.startTime
            endTime := data.endTime
            customerName := data.customerName
            customerEmail := data.customerEmail
            customerPhone := data.customerPhone
            customerTimezone := data.customerTimezone.getD "UTC"
            notes := data.notes
            status := .confirmed
            confirmedAt := some now
            cancelledAt := none
            cancellationReason := none
            version := 1 }
          (.ok booking, { db with bookings := db.bookings ++ [booking] })

/-- `cancelBooking` of `src/lib/booking.ts` (customer-initiated). -/
def cancelBooking (db : DB) (bookingId customerEmail : String)
    (reason : Option String) (now : Int) : Except BookingCode Booking × DB :=
  match db.bookings.find? (fun b => decide (b.id = bookingId)) with
  | none => (.error .BOOKING_NOT_FOUND, db)
  | some booking =>
    if booking.customerEmail ≠ customerEmail then (.error .UNAUTHORIZED, db)
    else if booking.status = Status.cancelled then (.error .ALREADY_CANCELLED, db)
    else
      let upd := fun (b : Booking) =>
        { b with status := Status.cancelled
                 cancellationReason := reason
                 cancelledAt := some now
                 version := b.version + 1 }
      (.ok (upd booking),
       { db with bookings := db.bookings.map (fun b => if b.id = bookingId then upd b else b) })

/-- `updateBookingStatus` of `src/lib/booking.ts` (provider-initiated).
The source applies the requested status after only a not-found and an
ownership check — it performs no check of the current status. -/
def updateBookingStatus (db : DB) (bookingId providerId : String) (status : Status)
    (reason : Option String) (now : Int) : Except BookingCode Booking × DB :=
  match db.bookings.find? (fun b => decide (b.id = bookingId)) with
  | none => (.error .BOOKING_NOT_FOUND, db)
  | some booking =>
    if booking.providerId ≠ providerId then (.error .UNAUTHORIZED, db)
    else
      let upd := fun (b : Booking) =>
        let b' := { b with status := status, version := b.version + 1 }
        if status = Status.cancelled then
          { b' with cancelledAt := some now, cancellationReason := reason }
        else if status = Status.confirmed then
          { b' with confirmedAt := some now }
        else b'
      (.ok (upd booking),
       { db with bookings := db.bookings.map (fun b => if b.id = bookingId then upd b else b) })

/-- Half-open interval overlap, the system's glossary definition:
`[a,b)` and `[c,d)` overlap iff `a < d && b > c`. -/
def overlaps (a b c d : Int) : Bool := decide (a < d ∧ b > c)

/-- The non-overlap invariant on the `bookings` table: no two non-cancelled
reservations of one provider have overlapping `[start, end)` intervals. -/
def NoOverlapInvariant (bs : List Booking) : Prop :=
  bs.Pairwise (fun b1 b2 =>
    b1.providerId = b2.providerId → b1.status ≠ Status.cancelled →
    b2.status ≠ Status.cancelled →
    overlaps b1.startTime b1.endTime b2.startTime b2.endTime = false)

/-! ## Embedding of `src/lib/availability.ts` -/

/-- Output element of the slot generator (`interface TimeSlot`).  The
`startTime`/`endTime` are in the viewer's zone, i.e. shifted by
`toZonedTime` with the customer offset. -/
structure TimeSlot where
  startTime : Int
  endTime : Int
  available : Bool
deriving DecidableEq, Repr

/-- Error codes thrown as `AvailabilityError` by `src/lib/availability.ts`. -/
inductive AvailCode where
  | PROVIDER_NOT_FOUND
  | SERVICE_NOT_FOUND
  | AVAILABILITY_FETCH_FAILED
deriving DecidableEq, Repr

/-- The slot-emission `while` loop of `getAvailableSlots` (lines 121–158 of
`src/lib/availability.ts`) for one availability rule: starting from
`currentSlotStart`, emit `[cursor, cursor + slotDuration)` slots while the
slot fits before `periodEnd`, marking each slot unavailable when it overlaps
a loaded booking or blocked period or its end is not after `now`, and
shifting the emitted instants by the viewer offset `custOff`.

The `0 < slotDuration` guard is a totality condition: on
`slotDuration ≤ 0` (a service with nonpositive duration + buffer) the
source loop would not terminate, so no finite behaviour is modelled there. -/
def generateRuleSlots (bookings : List Booking) (blocked : List BlockedPeriod)
    (now custOff slotDuration periodEnd : Int) (currentSlotStart : Int) : List TimeSlot :=
  if _h : 0 < slotDuration ∧ currentSlotStart < periodEnd then
    let currentSlotEnd := currentSlotStart + slotDuration
    if currentSlotEnd > periodEnd then []
    else
      let isBooked := bookings.any (fun booking =>
        overlaps currentSlotStart currentSlotEnd booking.startTime booking.endTime)
      let isBlocked := blocked.any (fun bp =>
        overlaps currentSlotStart currentSlotEnd bp.startDatetime bp.endDatetime)
      let isPast := decide (currentSlotEnd ≤ now)
      { startTime := toZonedTime currentSlotStart custOff
        endTime := toZonedTime currentSlotEnd custOff
        available := !isBooked && !isBlocked && !isPast }
        :: generateRuleSlots bookings blocked now custOff slotDuration periodEnd currentSlotEnd
  else []
termination_by (periodEnd - currentSlotStart).toNat
decreasing_by simp_wf; omega

/-- `getAvailableSlots` of `src/lib/availability.ts`.

`dayBase` is the wall-clock instant of `00:00` of the requested date in the
provider's zone (what `new Date(date + "T00:00:00")` denotes), `dow` the
date's day of week (`targetDate.getDay()`), `custOff` the viewer zone's UTC
offset and `now` the current instant.  Field for field it follows the
source: provider lookup by id; service lookup by id *and* providerId; the
enabled rules of the day; the day window `[dayStartUTC, dayEndUTC]` where
`dayEndUTC` is 23:59 of the date (`endOfDay`); bookings filtered by
`startTime` *within* the window (`gte`/`lte` on `start_time`, as the source
does — not interval overlap) and non-cancelled status; blocked periods
filtered by interval overlap with the window; then per rule the emission
loop. -/
def getAvailableSlots (db : DB) (providerId serviceId : String)
    (dayBase : Int) (dow : Nat) (custOff : Int) (now : Int) :
    Except AvailCode (List TimeSlot) :=
  match db.providers.find? (fun p => decide (p.id = providerId)) with
  | none => .error .PROVIDER_NOT_FOUND
  | some provider =>
    match db.services.find? (fun s => decide (s.id = serviceId ∧ s.providerId = providerId)) with
    | none => .error .SERVICE_NOT_FOUND
    | some service =>
      let providerTimezone := provider.timezone
      let slotDuration := service.durationMinutes + service.bufferTimeMinutes
      let availabilityRules := db.availability.filter (fun r =>
        decide (r.providerId = providerId ∧ r.dayOfWeek = dow ∧ r.isAvailable = true))
      if availabilityRules.length = 0 then .ok []
      else
        let dayStartUTC := fromZonedTime dayBase providerTimezone
        let dayEndUTC := fromZonedTime (dayBase + 1439) providerTimezone
        let bookings := db.bookings.filter (fun b =>
          decide (b.providerId = providerId ∧ dayStartUTC ≤ b.startTime ∧
            b.startTime ≤ dayEndUTC ∧ b.status ≠ Status.cancelled))
        let blockedPeriods := db.blockedPeriods.filter (fun bp =>
          decide (bp.providerId = providerId ∧ bp.startDatetime ≤ dayEndUTC ∧
            bp.endDatetime ≥ dayStartUTC))
        .ok (availabilityRules.flatMap (fun rule =>
          let periodStart := fromZonedTime (dayBase + rule.startTime) providerTimezone
          let periodEnd := fromZonedTime (dayBase + rule.endTime) providerTimezone
          generateRuleSlots bookings blockedPeriods now custOff slotDuration periodEnd periodStart))

/-- `getAvailableSlotsOnly` of `src/lib/availability.ts`: call
`getAvailableSlots` and keep the slots whose `available` flag is set. -/
def getAvailableSlotsOnly (db : DB) (providerId serviceId : String)
    (dayBase : Int) (dow : Nat) (custOff : Int) (now : Int) :
    Except AvailCode (List TimeSlot) :=
  match getAvailableSlots db providerId serviceId dayBase dow custOff now with
  | .ok allSlots => .ok (allSlots.filter (fun slot => slot.available))
  | .error e => .error e

/-- The slot the emission loop pushes when the cursor is at `cur`
(abbreviates the record literal of `generateRuleSlots`). -/
def mkSlot (bookings : List Booking) (blocked : List BlockedPeriod)
    (now custOff slotDuration cur : Int) : TimeSlot :=
  { startTime := toZonedTime cur custOff
    endTime := toZonedTime (cur + slotDuration) custOff
    available :=
      !(bookings.any (fun booking =>
          overlaps cur (cur + slotDuration) booking.startTime booking.endTime))
      && !(blocked.any (fun bp =>
          overlaps cur (cur + slotDuration) bp.startDatetime bp.endDatetime))
      && !(decide (cur + slotDuration ≤ now)) }

/-! ## Structural lemmas about the emission loop -/

/-- Every emitted slot is `mkSlot` at cursor `cur + i * dur` for some step
count `i`, and the slot fits before the period end; conversely every such
cursor position is emitted. -/
theorem mem_generateRuleSlots (bs : List Booking) (bl : List BlockedPeriod)
    (now off dur pend : Int) (hd : 0 < dur) (cur : Int) (s : TimeSlot) :
    s ∈ generateRuleSlots bs bl now off dur pend cur ↔
      ∃ i : Nat, cur + i * dur + dur ≤ pend ∧ s = mkSlot bs bl now off dur (cur + i * dur) := by
  rw [generateRuleSlots]
  by_cases h2 : cur < pend
  · rw [dif_pos ⟨hd, h2⟩]
    by_cases h3 : cur + dur > pend
    · rw [if_pos h3]
      simp only [List.not_mem_nil, false_iff, not_exists, not_and]
      intro i hi
      have hnn : (0 : Int) ≤ (i : Int) * dur := mul_nonneg (by positivity) hd.le
      intro _
      exact absurd hi (by linarith)
    · rw [if_neg h3]
      rw [List.mem_cons, mem_generateRuleSlots bs bl now off dur pend hd (cur + dur)]
      constructor
      · rintro (rfl | ⟨j, hj, rfl⟩)
        · exact ⟨0, by simpa using (by omega : cur + dur ≤ pend), by simp [mkSlot]⟩
        · refine ⟨j + 1, ?_, ?_⟩
          · have : cur + ((j : Int) + 1) * dur = cur + dur + (j : Int) * dur := by ring
            push_cast
            linarith [hj]
          · congr 1
            push_cast
            ring
      · rintro ⟨i, hi, rfl⟩
        cases i with
        | zero => exact Or.inl (by simp [mkSlot])
        | succ j =>
          refine Or.inr ⟨j, ?_, ?_⟩
          · have : cur + dur + (j : Int) * dur = cur + ((j : Int) + 1) * dur := by ring
            push_cast at hi ⊢
            linarith [hi]
          · congr 1
            push_cast
            ring
  · rw [dif_neg (fun hc => h2 hc.2)]
    simp only [List.not_mem_nil, false_iff, not_exists, not_and]
    intro i hi
    have hnn : (0 : Int) ≤ (i : Int) * dur := mul_nonneg (by positivity) hd.le
    intro _
    exact absurd hi (by linarith [not_lt.mp h2])
termination_by (pend - cur).toNat
decreasing_by simp_wf; omega

/-- The first emitted slot, when one exists, sits exactly at the cursor. -/
theorem head?_generateRuleSlots (bs : List Booking) (bl : List BlockedPeriod)
    (now off dur pend : Int) (hd : 0 < dur) (cur : Int) :
    (generateRuleSlots bs bl now off dur pend cur).head? =
      if cur + dur ≤ pend then some (mkSlot bs bl now off dur cur) else none := by
  rw [generateRuleSlots]
  by_cases h2 : cur < pend
  · rw [dif_pos ⟨hd, h2⟩]
    by_cases h3 : cur + dur > pend
    · rw [if_pos h3, if_neg (by omega)]
      rfl
    · rw [if_neg h3, if_pos (by omega)]
      simp [mkSlot]
  · rw [dif_neg (fun hc => h2 hc.2), if_neg (by omega)]
    rfl

/-- Consecutive emitted slots abut: each slot starts where the previous one
ends. -/
theorem chain'_generateRuleSlots (bs : List Booking) (bl : List BlockedPeriod)
    (now off dur pend : Int) (hd : 0 < dur) (cur : Int) :
    (generateRuleSlots bs bl now off dur pend cur).Chain'
      (fun a b => b.startTime = a.endTime) := by
  rw [generateRuleSlots]
  by_cases h2 : cur < pend
  · rw [dif_pos ⟨hd, h2⟩]
    by_cases h3 : cur + dur > pend
    · rw [if_pos h3]; exact List.chain'_nil
    · rw [if_neg h3]
      refine List.chain'_cons'.mpr ⟨?_, chain'_generateRuleSlots bs bl now off dur pend hd (cur + dur)⟩
      intro b hb
      rw [head?_generateRuleSlots bs bl now off dur pend hd (cur + dur)] at hb
      by_cases h4 : cur + dur + dur ≤ pend
      · rw [if_pos h4] at hb
        cases hb
        simp [mkSlot, toZonedTime]
      · rw [if_neg h4] at hb
        cases hb
  · rw [dif_neg (fun hc => h2 hc.2)]
    exact List.chain'_nil
termination_by (pend - cur).toNat
decreasing_by simp_wf; omega

/-- A rule window shorter than one granularity emits no candidate. -/
theorem generateRuleSlots_eq_nil (bs : List Booking) (bl : List BlockedPeriod)
    (now off dur pend cur : Int) (h : pend - cur < dur) :
    generateRuleSlots bs bl now off dur pend cur = [] := by
  rw [generateRuleSlots]
  by_cases h2 : 0 < dur ∧ cur < pend
  · rw [dif_pos h2, if_pos (by omega)]
  · rw [dif_neg h2]

/-- Shift a slot's wall-clock fields from viewer offset `offA` to `offB`
(availability flag untouched): this is `toZonedTime (fromZonedTime · offA) offB`
applied to both instants. -/
def reZone (offA offB : Int) (s : TimeSlot) : TimeSlot :=
  { startTime := toZonedTime (fromZonedTime s.startTime offA) offB
    endTime := toZonedTime (fromZonedTime s.endTime offA) offB
    available := s.available }

/-- The viewer offset only shifts the emitted wall-clock fields; the walk and
the availability marking are unchanged. -/
theorem generateRuleSlots_reZone (bs : List Booking) (bl : List BlockedPeriod)
    (now offA offB dur pend : Int) (cur : Int) :
    generateRuleSlots bs bl now offB dur pend cur =
      (generateRuleSlots bs bl now offA dur pend cur).map (reZone offA offB) := by
  rw [generateRuleSlots, generateRuleSlots]
  by_cases h2 : 0 < dur ∧ cur < pend
  · rw [dif_pos h2, dif_pos h2]
    by_cases h3 : cur + dur > pend
    · rw [if_pos h3, if_pos h3]
      rfl
    · rw [if_neg h3, if_neg h3, List.map_cons]
      have hrec := generateRuleSlots_reZone bs bl now offA offB dur pend (cur + dur)
      rw [hrec]
      simp only [reZone, toZonedTime, fromZonedTime]
      have e1 : cur + offA - offA + offB = cur + offB := by ring
      have e2 : cur + dur + offA - offA + offB = cur + dur + offB := by ring
      rw [e1, e2]
  · rw [dif_neg h2, dif_neg h2]
    rfl
termination_by (pend - cur).toNat
decreasing_by simp_wf; omega

/-! ## Claim theorems: admission (`createBookingSafe`) -/

/-- A successful admission returns the input bookings plus exactly the one
new row, whose interval and provider are the requested ones and whose status
is `confirmed`. -/
theorem createBookingSafe_ok_shape (lockAcquired : Bool) (db : DB)
    (data : CreateBookingData) (now : Int) (newId : String) (bk : Booking) (db' : DB)
    (hok : createBookingSafe lockAcquired db data now newId = (.ok bk, db')) :
    db'.bookings = db.bookings ++ [bk] ∧
    bk.providerId = data.providerId ∧ bk.startTime = data.startTime ∧
    bk.endTime = data.endTime ∧ bk.status = Status.confirmed ∧
    ∀ b ∈ db.bookings, conflictsWith b data = false := by
  unfold createBookingSafe at hok
  cases lockAcquired with
  | false => simp at hok
  | true =>
    simp only [Bool.not_true, Bool.false_eq_true, if_false] at hok
    by_cases hlen : (db.bookings.filter (fun b => conflictsWith b data)).length > 0
    · rw [if_pos hlen] at hok
      simp at hok
    · rw [if_neg hlen] at hok
      have hfilter : db.bookings.filter (fun b => conflictsWith b data) = [] :=
        List.length_eq_zero.mp (by omega)
      have hnoconf : ∀ b ∈ db.bookings, conflictsWith b data = false := by
        intro b hb
        by_contra hcontra
        have hmem : b ∈ db.bookings.filter (fun b => conflictsWith b data) :=
          List.mem_filter.mpr ⟨hb, by simpa using hcontra⟩
        rw [hfilter] at hmem
        exact List.not_mem_nil b hmem
      cases hfp : db.providers.find? (fun p => decide (p.id = data.providerId)) with
      | none => rw [hfp] at hok; simp at hok
      | some provider =>
        rw [hfp] at hok
        cases hfs : db.services.find? (fun s => decide (s.id = data.serviceId)) with
        | none => rw [hfs] at hok; simp at hok
        | some service =>
          rw [hfs] at hok
          simp only [Prod.mk.injEq, Except.ok.injEq] at hok
          obtain ⟨rfl, rfl⟩ := hok
          exact ⟨rfl, rfl, rfl, rfl, rfl, hnoconf⟩

/-- C1: the admission operation inserts a new reservation only when no
existing non-cancelled reservation of the provider overlaps the requested
half-open interval, and consequently a successful admission preserves the
per-provider non-overlap invariant. -/
theorem admission_preserves_no_overlap (lockAcquired : Bool) (db : DB)
    (data : CreateBookingData) (now : Int) (newId : String) (bk : Booking) (db' : DB)
    (hinv : NoOverlapInvariant db.bookings)
    (hok : createBookingSafe lockAcquired db data now newId = (.ok bk, db')) :
    (∀ b ∈ db.bookings, b.providerId = data.providerId → b.status ≠ Status.cancelled →
        overlaps b.startTime b.endTime data.startTime data.endTime = false) ∧
    NoOverlapInvariant db'.bookings := by
  obtain ⟨hbks, hprov, hstart, hend, hstat, hnoconf⟩ :=
    createBookingSafe_ok_shape lockAcquired db data now newId bk db' hok
  have hclear : ∀ b ∈ db.bookings, b.providerId = data.providerId →
      b.status ≠ Status.cancelled →
      overlaps b.startTime b.endTime data.startTime data.endTime = false := by
    intro b hb hbp hbs
    have := hnoconf b hb
    unfold conflictsWith at this
    simp only [decide_eq_false_iff_not] at this
    unfold overlaps
    simp only [decide_eq_false_iff_not]
    intro ⟨hlt, hgt⟩
    exact this ⟨hbp, hlt, hgt, hbs⟩
  refine ⟨hclear, ?_⟩
  rw [hbks]
  unfold NoOverlapInvariant at hinv ⊢
  rw [List.pairwise_append]
  refine ⟨hinv, List.pairwise_singleton _ _, ?_⟩
  intro a ha b hb
  simp only [List.mem_singleton] at hb
  subst hb
  intro hap _has _hbs
  rw [hstart, hend]
  exact hclear a ha (hap.trans hprov) _has

/-- Input store for the admission witnesses: one provider, one of its
services, one existing confirmed reservation `[0, 30)`. -/
def wDB : DB := {
  providers := [{ id := "p1", fullName := "John", businessName := "Shop",
                  email := "j@x", timezone := -300 }]
  services := [{ id := "s1", providerId := "p1", name := "Cut", durationMinutes := 30,
                 bufferTimeMinutes := 5, price := 25, isActive := true }]
  availability := []
  bookings := [{ id := "b0", providerId := "p1", serviceId := "s1", startTime := 0,
                 endTime := 30, customerName := "A", customerEmail := "a@x",
                 customerPhone := none, customerTimezone := "UTC", notes := none,
                 status := Status.confirmed, confirmedAt := some 0, cancelledAt := none,
                 cancellationReason := none, version := 1 }]
  blockedPeriods := [] }

/-- A request for `[30, 65)` by the same provider: touches but does not
overlap the existing reservation. -/
def wData : CreateBookingData := {
  providerId := "p1", serviceId := "s1", startTime := 30, endTime := 65,
  customerName := "B", customerEmail := "b@x", customerPhone := none,
  customerTimezone := none, notes := none }

/-- The row inserted for `wData`. -/
def wBk : Booking := {
  id := "b1", providerId := "p1", serviceId := "s1", startTime := 30, endTime := 65,
  customerName := "B", customerEmail := "b@x", customerPhone := none,
  customerTimezone := "UTC", notes := none, status := Status.confirmed,
  confirmedAt := some 100, cancelledAt := none, cancellationReason := none, version := 1 }

/-- Witness for C1 at the concrete store `wDB` and request `wData`. -/
theorem admission_preserves_no_overlap_witness :
    (∀ b ∈ wDB.bookings, b.providerId = wData.providerId → b.status ≠ Status.cancelled →
        overlaps b.startTime b.endTime wData.startTime wData.endTime = false) ∧
    NoOverlapInvariant ({ wDB with bookings := wDB.bookings ++ [wBk] }).bookings :=
  admission_preserves_no_overlap true wDB wData 100 "b1" wBk
    { wDB with bookings := wDB.bookings ++ [wBk] }
    (by unfold NoOverlapInvariant wDB; simp) (by rfl)

/-- C2: the admission failure taxonomy.  Lock contention yields `SLOT_BUSY`;
an overlapping non-cancelled reservation (with the locks obtained) yields
`SLOT_UNAVAILABLE`; the two codes are distinct; and every failure leaves the
store unchanged (no row inserted). -/
theorem admission_failure_taxonomy (lockAcquired : Bool) (db : DB)
    (data : CreateBookingData) (now : Int) (newId : String) :
    (lockAcquired = false →
      (createBookingSafe lockAcquired db data now newId).1 = .error .SLOT_BUSY) ∧
    (lockAcquired = true →
      (∃ b ∈ db.bookings, conflictsWith b data = true) →
      (createBookingSafe lockAcquired db data now newId).1 = .error .SLOT_UNAVAILABLE) ∧
    BookingCode.SLOT_BUSY ≠ BookingCode.SLOT_UNAVAILABLE ∧
    (∀ e, (createBookingSafe lockAcquired db data now newId).1 = .error e →
      (createBookingSafe lockAcquired db data now newId).2 = db) := by
  refine ⟨?_, ?_, by simp, ?_⟩
  · rintro rfl
    rfl
  · rintro rfl ⟨b, hb, hc⟩
    have hlen : (db.bookings.filter (fun b => conflictsWith b data)).length > 0 :=
      List.length_pos.mpr (fun hnil => by
        have hmemf : b ∈ db.bookings.filter (fun b => conflictsWith b data) :=
          List.mem_filter.mpr ⟨hb, by simpa using hc⟩
        rw [hnil] at hmemf
        exact List.not_mem_nil b hmemf)
    unfold createBookingSafe
    simp only [Bool.not_true, Bool.false_eq_true, if_false]
    rw [if_pos hlen]
  · intro e
    unfold createBookingSafe
    cases lockAcquired with
    | false => intro _; rfl
    | true =>
      simp only [Bool.not_true, Bool.false_eq_true, if_false]
      by_cases hlen : (db.bookings.filter (fun b => conflictsWith b data)).length > 0
      · rw [if_pos hlen]; intro _; rfl
      · rw [if_neg hlen]
        cases hfp : db.providers.find? (fun p => decide (p.id = data.providerId)) with
        | none => intro _; rfl
        | some provider =>
          cases hfs : db.services.find? (fun s => decide (s.id = data.serviceId)) with
          | none => intro _; rfl
          | some service => intro h; simp at h

/-- A request overlapping `wDB`'s existing reservation `[0, 30)`. -/
def wDataClash : CreateBookingData := {
  providerId := "p1", serviceId := "s1", startTime := 0, endTime := 35,
  customerName := "C", customerEmail := "c@x", customerPhone := none,
  customerTimezone := none, notes := none }

/-- Witness for C2: contention yields `SLOT_BUSY` and a genuine overlap
yields `SLOT_UNAVAILABLE`, each at a concrete input. -/
theorem admission_failure_taxonomy_witness :
    (createBookingSafe false wDB wData 100 "b9").1 = .error .SLOT_BUSY ∧
    (createBookingSafe true wDB wDataClash 100 "b9").1 = .error .SLOT_UNAVAILABLE ∧
    (createBookingSafe true wDB wDataClash 100 "b9").2 = wDB :=
  ⟨(admission_failure_taxonomy false wDB wData 100 "b9").1 rfl,
   (admission_failure_taxonomy true wDB wDataClash 100 "b9").2.1 rfl
     ⟨{ id := "b0", providerId := "p1", serviceId := "s1", startTime := 0,
        endTime := 30, customerName := "A", customerEmail := "a@x",
        customerPhone := none, customerTimezone := "UTC", notes := none,
        status := Status.confirmed, confirmedAt := some 0, cancelledAt := none,
        cancellationReason := none, version := 1 }, by simp [wDB], by decide⟩,
   (admission_failure_taxonomy true wDB wDataClash 100 "b9").2.2.2 .SLOT_UNAVAILABLE
     ((admission_failure_taxonomy true wDB wDataClash 100 "b9").2.1 rfl
       ⟨{ id := "b0", providerId := "p1", serviceId := "s1", startTime := 0,
          endTime := 30, customerName := "A", customerEmail := "a@x",
          customerPhone := none, customerTimezone := "UTC", notes := none,
          status := Status.confirmed, confirmedAt := some 0, cancelledAt := none,
          cancellationReason := none, version := 1 }, by simp [wDB], by decide⟩)⟩

/-- Store for the C3 failing input: provider `p1` exists, service `s1`
exists but belongs to the *other* provider `p2`; no reservations. -/
def c3DB : DB := {
  providers := [{ id := "p1", fullName := "John", businessName := "Shop",
                  email := "j@x", timezone := 0 },
                { id := "p2", fullName := "Mary", businessName := "Spa",
                  email := "m@x", timezone := 0 }]
  services := [{ id := "s1", providerId := "p2", name := "Massage", durationMinutes := 30,
                 bufferTimeMinutes := 5, price := 40, isActive := true }]
  availability := []
  bookings := []
  blockedPeriods := [] }

/-- C3 failing request: a malformed range (`end < start`) for provider `p1`
with `p2`'s service. -/
def c3Data : CreateBookingData := {
  providerId := "p1", serviceId := "s1", startTime := 100, endTime := 50,
  customerName := "Jane", customerEmail := "jane@x", customerPhone := none,
  customerTimezone := none, notes := none }

/-- C3 (code bug): the admission operation performs no independent input
validation.  On a request whose range satisfies `end < start` and whose
service belongs to a different provider, `createBookingSafe` succeeds and
inserts the malformed, mismatched reservation row instead of failing with a
validation/not-found error. -/
theorem admission_skips_revalidation :
    ∃ bk : Booking,
      (createBookingSafe true c3DB c3Data 0 "bNew").1 = .ok bk ∧
      bk.endTime < bk.startTime ∧
      bk.providerId = "p1" ∧
      (∀ s ∈ c3DB.services, s.id = bk.serviceId → s.providerId = "p2") ∧
      (createBookingSafe true c3DB c3Data 0 "bNew").2.bookings ≠ [] := by
  refine ⟨{ id := "bNew", providerId := "p1", serviceId := "s1", startTime := 100,
            endTime := 50, customerName := "Jane", customerEmail := "jane@x",
            customerPhone := none, customerTimezone := "UTC", notes := none,
            status := Status.confirmed, confirmedAt := some 0, cancelledAt := none,
            cancellationReason := none, version := 1 }, ?_, ?_, ?_, ?_, ?_⟩
  · rfl
  · decide
  · rfl
  · decide
  · decide

/-! ## Claim theorems: status transitions -/

/-- Store for the C7 failing input: one booking already `cancelled`. -/
def c7DB : DB := {
  providers := []
  services := []
  availability := []
  bookings := [{ id := "b1", providerId := "p1", serviceId := "s1", startTime := 0,
                 endTime := 30, customerName := "A", customerEmail := "a@x",
                 customerPhone := none, customerTimezone := "UTC", notes := none,
                 status := Status.cancelled, confirmedAt := none, cancelledAt := some 10,
                 cancellationReason := some "no", version := 2 }]
  blockedPeriods := [] }

/-- C7 (code bug): `updateBookingStatus` enforces no transition discipline.
A reservation already in the terminal `cancelled` state accepts a further
provider-initiated transition back to `confirmed`: the call succeeds (no
invalid-transition error) and rewrites the stored row. -/
theorem update_status_accepts_cancelled_to_confirmed :
    (∃ bk, (updateBookingStatus c7DB "b1" "p1" Status.confirmed none 99).1 = .ok bk ∧
      bk.status = Status.confirmed) ∧
    (updateBookingStatus c7DB "b1" "p1" Status.confirmed none 99).2.bookings ≠
      c7DB.bookings := by
  refine ⟨⟨{ id := "b1", providerId := "p1", serviceId := "s1", startTime := 0,
             endTime := 30, customerName := "A", customerEmail := "a@x",
             customerPhone := none, customerTimezone := "UTC", notes := none,
             status := Status.confirmed, confirmedAt := some 99, cancelledAt := some 10,
             cancellationReason := some "no", version := 3 }, ?_, ?_⟩, ?_⟩
  · rfl
  · rfl
  · decide

/-- The fields of a reservation row that a status transition must not touch:
everything except status, the status timestamps, the cancellation reason and
the version counter. -/
def SameFrame (o n : Booking) : Prop :=
  n.id = o.id ∧ n.providerId = o.providerId ∧ n.serviceId = o.serviceId ∧
  n.startTime = o.startTime ∧ n.endTime = o.endTime ∧
  n.customerName = o.customerName ∧ n.customerEmail = o.customerEmail ∧
  n.customerPhone = o.customerPhone ∧ n.customerTimezone = o.customerTimezone ∧
  n.notes = o.notes

/-- Pointwise-related map: a list is `Forall₂`-related to its image under a
function that relates every element to its image. -/
theorem forall₂_map_self {α : Type} (R : α → α → Prop) (g : α → α) :
    ∀ l : List α, (∀ a ∈ l, R a (g a)) → List.Forall₂ R l (l.map g)
  | [], _ => List.Forall₂.nil
  | a :: l, h =>
    List.Forall₂.cons (h a (List.mem_cons_self a l))
      (forall₂_map_self R g l (fun b hb => h b (List.mem_cons_of_mem a hb)))

/-- C8: both status-transition operations leave every row's time range and
identity fields unchanged — on success the new table is row-for-row
`SameFrame`-related to the old one. -/
theorem status_transitions_frame (db : DB) (bookingId customerEmail providerId : String)
    (status : Status) (reason : Option String) (now : Int) :
    (∀ bk db', cancelBooking db bookingId customerEmail reason now = (.ok bk, db') →
      List.Forall₂ SameFrame db.bookings db'.bookings) ∧
    (∀ bk db', updateBookingStatus db bookingId providerId status reason now = (.ok bk, db') →
      List.Forall₂ SameFrame db.bookings db'.bookings) := by
  constructor
  · intro bk db' hok
    unfold cancelBooking at hok
    split at hok
    · simp at hok
    · split at hok
      · simp at hok
      · split at hok
        · simp at hok
        · simp only [Prod.mk.injEq, Except.ok.injEq] at hok
          obtain ⟨-, rfl⟩ := hok
          refine forall₂_map_self SameFrame _ db.bookings (fun b _ => ?_)
          by_cases hb : b.id = bookingId
          · rw [if_pos hb]
            exact ⟨rfl, rfl, rfl, rfl, rfl, rfl, rfl, rfl, rfl, rfl⟩
          · rw [if_neg hb]
            exact ⟨rfl, rfl, rfl, rfl, rfl, rfl, rfl, rfl, rfl, rfl⟩
  · intro bk db' hok
    unfold updateBookingStatus at hok
    split at hok
    · simp at hok
    · split at hok
      · simp at hok
      · simp only [Prod.mk.injEq, Except.ok.injEq] at hok
        obtain ⟨-, rfl⟩ := hok
        refine forall₂_map_self SameFrame _ db.bookings (fun b _ => ?_)
        by_cases hb : b.id = bookingId
        · rw [if_pos hb]
          by_cases hc : status = Status.cancelled
          · rw [if_pos hc]
            exact ⟨rfl, rfl, rfl, rfl, rfl, rfl, rfl, rfl, rfl, rfl⟩
          · rw [if_neg hc]
            by_cases hcf : status = Status.confirmed
            · rw [if_pos hcf]
              exact ⟨rfl, rfl, rfl, rfl, rfl, rfl, rfl, rfl, rfl, rfl⟩
            · rw [if_neg hcf]
              exact ⟨rfl, rfl, rfl, rfl, rfl, rfl, rfl, rfl, rfl, rfl⟩
        · rw [if_neg hb]
          exact ⟨rfl, rfl, rfl, rfl, rfl, rfl, rfl, rfl, rfl, rfl⟩

/-- Witness for C8: cancelling `wDB`'s confirmed reservation and marking it
completed both keep the table `SameFrame`-related at a concrete input. -/
theorem status_transitions_frame_witness :
    List.Forall₂ SameFrame wDB.bookings
      ((cancelBooking wDB "b0" "a@x" (some "trip") 50).2.bookings) ∧
    List.Forall₂ SameFrame wDB.bookings
      ((updateBookingStatus wDB "b0" "p1" Status.completed none 50).2.bookings) :=
  ⟨(status_transitions_frame wDB "b0" "a@x" "p1" Status.completed (some "trip") 50).1
      ((cancelBooking wDB "b0" "a@x" (some "trip") 50).1.toOption.get (by rfl))
      ((cancelBooking wDB "b0" "a@x" (some "trip") 50).2) (by rfl),
   (status_transitions_frame wDB "b0" "a@x" "p1" Status.completed none 50).2
      ((updateBookingStatus wDB "b0" "p1" Status.completed none 50).1.toOption.get (by rfl))
      ((updateBookingStatus wDB "b0" "p1" Status.completed none 50).2) (by rfl)⟩

/-! ## Claim theorems: slot generation -/

/-- A service with nonpositive granularity generates nothing (totality guard
of the model; the source loop would not terminate). -/
theorem generateRuleSlots_nonpos (bs : List Booking) (bl : List BlockedPeriod)
    (now off dur pend cur : Int) (h : ¬ 0 < dur) :
    generateRuleSlots bs bl now off dur pend cur = [] := by
  rw [generateRuleSlots]
  rw [dif_neg (fun hc => h hc.1)]

/-- Provider open Monday 09:00–17:00, one 30-minute service with 5-minute
buffer, no reservations, no blocked periods. -/
def mondayDB : DB := {
  providers := [{ id := "p1", fullName := "John", businessName := "Shop",
                  email := "j@x", timezone := 0 }]
  services := [{ id := "s1", providerId := "p1", name := "Cut", durationMinutes := 30,
                 bufferTimeMinutes := 5, price := 25, isActive := true }]
  availability := [{ providerId := "p1", dayOfWeek := 1, startTime := 540,
                     endTime := 1020, isAvailable := true }]
  bookings := []
  blockedPeriods := [] }

/-- C4: the per-rule slot walk.  Every emitted slot starts at
`rule start + i·granularity`, is exactly one granularity long and ends no
later than the rule's end; consecutive slots abut; a rule shorter than one
granularity emits nothing; the first slot sits at the rule's start; and the
concrete Monday 09:00–17:00 scenario with granularity 35 yields exactly the
slots 09:00, 09:35, …, 16:00 (in minutes: 540, 575, …, 960), the last
ending 16:35 ≤ 17:00. -/
theorem slot_walk_structure (bs : List Booking) (bl : List BlockedPeriod)
    (now off dur pend cur : Int) (hd : 0 < dur) :
    (∀ s ∈ generateRuleSlots bs bl now off dur pend cur,
      ∃ i : Nat, s.startTime = toZonedTime (cur + i * dur) off ∧
        s.endTime = s.startTime + dur ∧ cur + i * dur + dur ≤ pend) ∧
    (generateRuleSlots bs bl now off dur pend cur).Chain'
      (fun a b => b.startTime = a.endTime) ∧
    (pend - cur < dur → generateRuleSlots bs bl now off dur pend cur = []) ∧
    (cur + dur ≤ pend →
      (generateRuleSlots bs bl now off dur pend cur).head? =
        some (mkSlot bs bl now off dur cur)) ∧
    getAvailableSlots mondayDB "p1" "s1" 0 1 0 0 =
      .ok [⟨540, 575, true⟩, ⟨575, 610, true⟩, ⟨610, 645, true⟩, ⟨645, 680, true⟩,
           ⟨680, 715, true⟩, ⟨715, 750, true⟩, ⟨750, 785, true⟩, ⟨785, 820, true⟩,
           ⟨820, 855, true⟩, ⟨855, 890, true⟩, ⟨890, 925, true⟩, ⟨925, 960, true⟩,
           ⟨960, 995, true⟩] := by
  refine ⟨?_, ?_, ?_, ?_, ?_⟩
  · intro s hs
    obtain ⟨i, hi, rfl⟩ := (mem_generateRuleSlots bs bl now off dur pend hd cur s).mp hs
    refine ⟨i, rfl, ?_, hi⟩
    simp only [mkSlot, toZonedTime]
    ring
  · exact chain'_generateRuleSlots bs bl now off dur pend hd cur
  · exact generateRuleSlots_eq_nil bs bl now off dur pend cur
  · intro hfit
    rw [head?_generateRuleSlots bs bl now off dur pend hd cur, if_pos hfit]
  · rw [getAvailableSlots]
    norm_num [mondayDB, List.find?, List.filter, fromZonedTime]
    repeat (rw [generateRuleSlots]; norm_num [toZonedTime, overlaps, fromZonedTime])

/-- Witness for C4 at the Monday numbers: granularity 35 in a 540–1020 rule
window (and a 540–574 window too short for one slot). -/
theorem slot_walk_structure_witness :
    (generateRuleSlots [] [] 0 0 35 1020 540).Chain' (fun a b => b.startTime = a.endTime) ∧
    generateRuleSlots [] [] 0 0 35 574 540 = [] ∧
    (generateRuleSlots [] [] 0 0 35 1020 540).head? = some (mkSlot [] [] 0 0 35 540) :=
  ⟨(slot_walk_structure [] [] 0 0 35 1020 540 (by decide)).2.1,
   (slot_walk_structure [] [] 0 0 35 574 540 (by decide)).2.2.1 (by decide),
   (slot_walk_structure [] [] 0 0 35 1020 540 (by decide)).2.2.2.1 (by decide)⟩

/-- C5: half-open boundary semantics of the availability marking.  Against a
single loaded reservation `r` (and no blocked periods): a candidate slot
whose end instant equals `r`'s start is marked available (touching is not
overlap) provided it is not in the past, while a candidate slot whose start
instant equals `r`'s start is marked unavailable. -/
theorem slot_boundary_half_open (r : Booking) (now off dur pend cur : Int) :
    ∀ s ∈ generateRuleSlots [r] [] now off dur pend cur,
      (fromZonedTime s.endTime off = r.startTime →
        now < fromZonedTime s.endTime off → s.available = true) ∧
      (fromZonedTime s.startTime off = r.startTime → r.startTime < r.endTime →
        s.available = false) := by
  intro s hs
  by_cases hd : 0 < dur
  · obtain ⟨i, -, rfl⟩ := (mem_generateRuleSlots [r] [] now off dur pend hd cur s).mp hs
    set c := cur + i * dur with hc
    constructor
    · intro hend hnow
      simp only [mkSlot, toZonedTime, fromZonedTime, add_sub_cancel_right] at hend hnow ⊢
      simp only [List.any_cons, List.any_nil, Bool.or_false, overlaps]
      have h1 : ¬ (c < r.endTime ∧ c + dur > r.startTime) := fun h => by omega
      have h2 : ¬ (c + dur ≤ now) := by omega
      simp [h1, h2]
    · intro hstart hr
      simp only [mkSlot, toZonedTime, fromZonedTime, add_sub_cancel_right] at hstart ⊢
      simp only [List.any_cons, List.any_nil, Bool.or_false, overlaps]
      have h1 : c < r.endTime ∧ c + dur > r.startTime := by omega
      simp [h1]
  · rw [generateRuleSlots_nonpos [r] [] now off dur pend cur hd] at hs
    exact absurd hs (List.not_mem_nil s)

/-- The single reservation `[70, 100)` used in the C5 witness. -/
def rEx : Booking := {
  id := "b0", providerId := "p1", serviceId := "s1", startTime := 70, endTime := 100,
  customerName := "A", customerEmail := "a@x", customerPhone := none,
  customerTimezone := "UTC", notes := none, status := Status.confirmed,
  confirmedAt := some 0, cancelledAt := none, cancellationReason := none, version := 1 }

/-- Witness for C5: with granularity 35 from cursor 0 against `[70, 100)`,
the slot `[35, 70)` (touching) is available and the slot `[70, 105)`
(equal starts) is unavailable. -/
theorem slot_boundary_half_open_witness :
    (mkSlot [rEx] [] 0 0 35 35).available = true ∧
    (mkSlot [rEx] [] 0 0 35 70).available = false := by
  have hm1 : mkSlot [rEx] [] 0 0 35 35 ∈ generateRuleSlots [rEx] [] 0 0 35 1000 0 :=
    (mem_generateRuleSlots [rEx] [] 0 0 35 1000 (by decide) 0 _).mpr
      ⟨1, by decide, by decide⟩
  have hm2 : mkSlot [rEx] [] 0 0 35 70 ∈ generateRuleSlots [rEx] [] 0 0 35 1000 0 :=
    (mem_generateRuleSlots [rEx] [] 0 0 35 1000 (by decide) 0 _).mpr
      ⟨2, by decide, by decide⟩
  exact ⟨(slot_boundary_half_open rEx 0 0 35 1000 0 _ hm1).1 (by decide) (by decide),
         (slot_boundary_half_open rEx 0 0 35 1000 0 _ hm2).2 (by decide) (by decide)⟩

/-- Store for the C6 failing input: provider in UTC, open 00:00–08:00 on the
requested day, one *confirmed* reservation `[-30, 30)` that starts before
the day window (23:30 the previous day) and extends 30 minutes into it. -/
def c6DB : DB := {
  providers := [{ id := "p1", fullName := "John", businessName := "Shop",
                  email := "j@x", timezone := 0 }]
  services := [{ id := "s1", providerId := "p1", name := "Cut", durationMinutes := 30,
                 bufferTimeMinutes := 5, price := 25, isActive := true }]
  availability := [{ providerId := "p1", dayOfWeek := 1, startTime := 0,
                     endTime := 480, isAvailable := true }]
  bookings := [{ id := "b0", providerId := "p1", serviceId := "s1", startTime := -30,
                 endTime := 30, customerName := "A", customerEmail := "a@x",
                 customerPhone := none, customerTimezone := "UTC", notes := none,
                 status := Status.confirmed, confirmedAt := some (-40), cancelledAt := none,
                 cancellationReason := none, version := 1 }]
  blockedPeriods := [] }

/-- C6 (code bug): the booking query of `getAvailableSlots` filters on
`start_time` *within* the day window instead of interval overlap, so the
confirmed reservation `[-30, 30)` spanning midnight is not loaded: the
candidate slot `[0, 35)` overlaps it, lies in the day window, yet is marked
available. -/
theorem day_window_misses_midnight_reservation :
    (∃ rest, getAvailableSlots c6DB "p1" "s1" 0 1 0 0 =
      .ok ({ startTime := 0, endTime := 35, available := true } :: rest)) ∧
    (∃ b ∈ c6DB.bookings, b.status ≠ Status.cancelled ∧
      overlaps 0 35 b.startTime b.endTime = true ∧
      b.startTime < fromZonedTime 0 0 ∧ fromZonedTime 0 0 < b.endTime) := by
  constructor
  · refine ⟨[⟨35, 70, true⟩, ⟨70, 105, true⟩, ⟨105, 140, true⟩, ⟨140, 175, true⟩,
             ⟨175, 210, true⟩, ⟨210, 245, true⟩, ⟨245, 280, true⟩, ⟨280, 315, true⟩,
             ⟨315, 350, true⟩, ⟨350, 385, true⟩, ⟨385, 420, true⟩, ⟨420, 455, true⟩], ?_⟩
    rw [getAvailableSlots]
    norm_num [c6DB, List.find?, List.filter, fromZonedTime]
    repeat (rw [generateRuleSlots]; norm_num [toZonedTime, overlaps, fromZonedTime])
  · exact ⟨c6DB.bookings.head (by decide), by decide, by decide, by decide, by decide, by decide⟩

/-- Re-zoning is inverted by re-zoning back. -/
theorem reZone_reZone (offA offB : Int) (s : TimeSlot) :
    reZone offB offA (reZone offA offB s) = s := by
  cases s
  simp only [reZone, toZonedTime, fromZonedTime, TimeSlot.mk.injEq]
  refine ⟨by omega, by omega, trivial⟩

/-- `getAvailableSlots` for viewer offset `offB` is the `offA` output with
every slot re-zoned; errors are identical. -/
theorem getAvailableSlots_reZone (db : DB) (providerId serviceId : String)
    (dayBase : Int) (dow : Nat) (now offA offB : Int) :
    getAvailableSlots db providerId serviceId dayBase dow offB now =
      Except.map (List.map (reZone offA offB))
        (getAvailableSlots db providerId serviceId dayBase dow offA now) := by
  unfold getAvailableSlots
  cases db.providers.find? (fun p => decide (p.id = providerId)) with
  | none => rfl
  | some provider =>
    cases db.services.find? (fun s => decide (s.id = serviceId ∧ s.providerId = providerId)) with
    | none => rfl
    | some service =>
      by_cases hrules : (db.availability.filter (fun r =>
          decide (r.providerId = providerId ∧ r.dayOfWeek = dow ∧ r.isAvailable = true))).length = 0
      · simp only [hrules, if_pos]
        rfl
      · simp only [hrules, if_false, Except.map, List.map_flatMap]
        refine congrArg Except.ok ?_
        refine List.flatMap_congr (fun rule _ => ?_)
        exact generateRuleSlots_reZone _ _ _ offA offB _ _ _

/-- C9: slots generated for viewer zone B are, position for position, the
same UTC instants as the slots generated for viewer zone A (with the same
availability flags), and converting B's output back into zone A reproduces
A's output exactly. -/
theorem slots_timezone_round_trip (db : DB) (providerId serviceId : String)
    (dayBase : Int) (dow : Nat) (now offA offB : Int) (sa sb : List TimeSlot)
    (ha : getAvailableSlots db providerId serviceId dayBase dow offA now = .ok sa)
    (hb : getAvailableSlots db providerId serviceId dayBase dow offB now = .ok sb) :
    sa = sb.map (reZone offB offA) ∧
    sa.length = sb.length ∧
    ∀ i (hia : i < sa.length) (hib : i < sb.length),
      fromZonedTime (sb[i].startTime) offB = fromZonedTime (sa[i].startTime) offA ∧
      fromZonedTime (sb[i].endTime) offB = fromZonedTime (sa[i].endTime) offA ∧
      sb[i].available = sa[i].available := by
  have hshift := getAvailableSlots_reZone db providerId serviceId dayBase dow now offA offB
  rw [ha, hb] at hshift
  simp only [Except.map, Except.ok.injEq] at hshift
  subst hshift
  refine ⟨?_, by simp, ?_⟩
  · have hcancel : List.map (reZone offB offA) (List.map (reZone offA offB) sa) =
        List.map id sa := by
      rw [List.map_map]
      exact List.map_congr_left (fun s _ => reZone_reZone offA offB s)
    rw [hcancel, List.map_id]
  · intro i hia hib
    simp only [List.getElem_map, reZone, fromZonedTime, toZonedTime]
    refine ⟨by omega, by omega, trivial⟩

/-- Provider open 09:00–10:10 only: two slots. -/
def c9DB : DB := {
  providers := [{ id := "p1", fullName := "John", businessName := "Shop",
                  email := "j@x", timezone := 0 }]
  services := [{ id := "s1", providerId := "p1", name := "Cut", durationMinutes := 30,
                 bufferTimeMinutes := 5, price := 25, isActive := true }]
  availability := [{ providerId := "p1", dayOfWeek := 1, startTime := 540,
                     endTime := 610, isAvailable := true }]
  bookings := []
  blockedPeriods := [] }

/-- Witness for C9 at viewer offsets 0 (UTC) and +60. -/
theorem slots_timezone_round_trip_witness :
    [TimeSlot.mk 540 575 true, TimeSlot.mk 575 610 true] =
      [TimeSlot.mk 600 635 true, TimeSlot.mk 635 670 true].map (reZone 60 0) :=
  (slots_timezone_round_trip c9DB "p1" "s1" 0 1 0 0 60
    [⟨540, 575, true⟩, ⟨575, 610, true⟩] [⟨600, 635, true⟩, ⟨635, 670, true⟩]
    (by rw [getAvailableSlots]
        norm_num [c9DB, List.find?, List.filter, fromZonedTime]
        repeat (rw [generateRuleSlots]; norm_num [toZonedTime, overlaps, fromZonedTime]))
    (by rw [getAvailableSlots]
        norm_num [c9DB, List.find?, List.filter, fromZonedTime]
        repeat (rw [generateRuleSlots]; norm_num [toZonedTime, overlaps, fromZonedTime]))).1

/-- C10: `getAvailableSlotsOnly` returns exactly the `available = true`
subsequence of `getAvailableSlots`'s output, in order (a sublist — nothing
fabricated, reordered or altered), and passes errors through unchanged. -/
theorem only_available_subsequence (db : DB) (providerId serviceId : String)
    (dayBase : Int) (dow : Nat) (custOff : Int) (now : Int) :
    (∀ slots, getAvailableSlots db providerId serviceId dayBase dow custOff now = .ok slots →
      getAvailableSlotsOnly db providerId serviceId dayBase dow custOff now =
        .ok (slots.filter (fun slot => slot.available)) ∧
      (slots.filter (fun slot => slot.available)).Sublist slots ∧
      (∀ t ∈ slots.filter (fun slot => slot.available), t.available = true) ∧
      (∀ t ∈ slots, t.available = true → t ∈ slots.filter (fun slot => slot.available))) ∧
    (∀ e, getAvailableSlots db providerId serviceId dayBase dow custOff now = .error e →
      getAvailableSlotsOnly db providerId serviceId dayBase dow custOff now = .error e) := by
  constructor
  · intro slots hok
    refine ⟨?_, List.filter_sublist slots, ?_, ?_⟩
    · unfold getAvailableSlotsOnly
      rw [hok]
    · intro t ht
      simpa using (List.mem_filter.mp ht).2
    · intro t ht hav
      exact List.mem_filter.mpr ⟨ht, by simpa using hav⟩
  · intro e herr
    unfold getAvailableSlotsOnly
    rw [herr]

/-- Store for the C10 witness: open 00:00-02:20, one confirmed reservation
`[70, 105)` booking the third slot. -/
def c10DB : DB := {
  providers := [{ id := "p1", fullName := "John", businessName := "Shop",
                  email := "j@x", timezone := 0 }]
  services := [{ id := "s1", providerId := "p1", name := "Cut", durationMinutes := 30,
                 bufferTimeMinutes := 5, price := 25, isActive := true }]
  availability := [{ providerId := "p1", dayOfWeek := 1, startTime := 0,
                     endTime := 140, isAvailable := true }]
  bookings := [{ id := "b0", providerId := "p1", serviceId := "s1", startTime := 70,
                 endTime := 105, customerName := "A", customerEmail := "a@x",
                 customerPhone := none, customerTimezone := "UTC", notes := none,
                 status := Status.confirmed, confirmedAt := some 0, cancelledAt := none,
                 cancellationReason := none, version := 1 }]
  blockedPeriods := [] }

/-- Witness for C10 on a store with one booked and three free slots: only
the free slots survive, in order. -/
theorem only_available_subsequence_witness :
    getAvailableSlotsOnly c10DB "p1" "s1" 0 1 0 0 =
      .ok (([⟨0, 35, true⟩, ⟨35, 70, true⟩, ⟨70, 105, false⟩,
             ⟨105, 140, true⟩] : List TimeSlot).filter (fun slot => slot.available)) :=
  ((only_available_subsequence c10DB "p1" "s1" 0 1 0 0).1
    [⟨0, 35, true⟩, ⟨35, 70, true⟩, ⟨70, 105, false⟩, ⟨105, 140, true⟩]
    (by rw [getAvailableSlots]
        norm_num [c10DB, List.find?, List.filter, fromZonedTime,
          show (decide (Status.confirmed = Status.cancelled)) = false from rfl]
        repeat (rw [generateRuleSlots]; norm_num [toZonedTime, overlaps, fromZonedTime]))).1
